import Mathlib

/-!
A shallow embedding of the Paint repository: the `Canvas` widget of
`src/ui/canvas.py` and the `PhotoEditor` menu commands of `src/ui/menus.py`
that operate on it.

Modelling conventions, used throughout:
* A `QImage` is an `Img`: explicit pixel dimensions plus a total pixel
  lookup.  `Format_RGB32` pixels carry alpha 255; `Format_ARGB32` pixels
  carry an explicit alpha.
* Machine floats (the zoom scale) are modelled as exact rationals; Python's
  truncating `int()` conversion is `truncQ`.
* PyQt truthiness matters: `QPoint(0, 0)` is falsy (`__bool__` is
  `not isNull()`), so `if self.selection_start:` is false both for `None`
  and for the origin.  This is `qpointTruthy`.
* Qt painting primitives (`QImage.scaled`, `QImage.copy`,
  `QPainter.drawImage` with its composition modes, `QPainter.fillPath` on a
  polygon) are modelled as explicit pixel-level functions, each documented
  at its definition.
-/

/-- One RGBA pixel with 8-bit channels (a `QImage` pixel value). -/
structure Pixel where
  r : Nat
  g : Nat
  b : Nat
  a : Nat
  deriving DecidableEq, Repr

/-- Fully opaque white (`Qt.white` on the RGB32 canvas). -/
def Pixel.white : Pixel := ⟨255, 255, 255, 255⟩

/-- Fully transparent (`Qt.transparent` on an ARGB32 buffer). -/
def Pixel.clear : Pixel := ⟨0, 0, 0, 0⟩

/-- An integer point (`QPoint`). -/
structure Pt where
  x : Int
  y : Int
  deriving DecidableEq, Repr

/-- `QPoint` addition. -/
def Pt.add (p q : Pt) : Pt := ⟨p.x + q.x, p.y + q.y⟩

/-- `QPoint` subtraction. -/
def Pt.sub (p q : Pt) : Pt := ⟨p.x - q.x, p.y - q.y⟩

/-- A rectangle (`QRect`) given by its top-left corner and width/height. -/
structure SRect where
  x : Int
  y : Int
  w : Int
  h : Int
  deriving DecidableEq, Repr

/-- `QRect()` — the null rectangle. -/
def SRect.null : SRect := ⟨0, 0, 0, 0⟩

/-- `QRect.isValid()`: for the normalized rectangles this program builds
(`w, h ≥ 0`), valid means both extents are at least one pixel. -/
def SRect.isValid (r : SRect) : Prop := 1 ≤ r.w ∧ 1 ≤ r.h

instance (r : SRect) : Decidable r.isValid := by
  unfold SRect.isValid; infer_instance

/-- `QRect.contains(point)`: the right and bottom pixel edges are at
`x + w - 1` / `y + h - 1`, so an empty rectangle contains nothing. -/
def SRect.containsPt (r : SRect) (p : Pt) : Prop :=
  r.x ≤ p.x ∧ p.x ≤ r.x + r.w - 1 ∧ r.y ≤ p.y ∧ p.y ≤ r.y + r.h - 1

instance (r : SRect) (p : Pt) : Decidable (r.containsPt p) := by
  unfold SRect.containsPt; infer_instance

/-- A pixel buffer (`QImage`): dimensions plus a total pixel lookup.
Coordinates outside `[0, w) × [0, h)` are still mapped (the lookup is
total); operations that care about bounds test them explicitly. -/
structure Img where
  w : Nat
  h : Nat
  pix : Int → Int → Pixel

/-- `QImage.isNull()`: an image with a zero extent. -/
def Img.isNullImg (img : Img) : Prop := img.w = 0 ∨ img.h = 0

instance (img : Img) : Decidable img.isNullImg := by
  unfold Img.isNullImg; infer_instance

/-- A solid image of one color, e.g. the initial white 800×600 canvas. -/
def solidImg (w h : Nat) (c : Pixel) : Img := ⟨w, h, fun _ _ => c⟩

/-- Python's `int()` applied to a quotient: truncation toward zero. -/
def truncQ (q : ℚ) : Int :=
  if q < 0 then -(((-q).num.toNat / (-q).den : Nat) : Int)
  else ((q.num.toNat / q.den : Nat) : Int)

/-- PyQt truthiness of an optional `QPoint` field: `None` is falsy and so is
`QPoint(0, 0)` (PyQt defines `__bool__` as `not isNull()`). -/
def qpointTruthy : Option Pt → Bool
  | none => false
  | some p => decide (¬(p.x = 0 ∧ p.y = 0))

/-- Modelled from the toolkit: `QImage.copy(rect)` — a `rect.w × rect.h`
buffer whose pixel `(i, j)` is the source pixel `(rect.x + i, rect.y + j)`;
areas falling outside the source image are filled with zero bytes, which an
RGB32 image reads back as opaque black. -/
def copyRect (img : Img) (r : SRect) : Img :=
  ⟨r.w.toNat, r.h.toNat, fun i j =>
    if 0 ≤ r.x + i ∧ r.x + i < (img.w : Int) ∧ 0 ≤ r.y + j ∧ r.y + j < (img.h : Int) then
      img.pix (r.x + i) (r.y + j)
    else ⟨0, 0, 0, 255⟩⟩

/-- Modelled from the toolkit: `QImage.scaled(tw, th, KeepAspectRatio,
SmoothTransformation)`.  The program always derives both targets from one
scale factor, so keeping the ratio leaves the requested size; sampling is
modelled as nearest-neighbour (no claim inspects resampled pixel values). -/
def scaledImg (img : Img) (tw th : Nat) : Img :=
  ⟨tw, th, fun x y =>
    if tw = 0 ∨ th = 0 then Pixel.white
    else img.pix (x * (img.w : Int) / (tw : Int)) (y * (img.h : Int) / (th : Int))⟩

/-- `int(dim * scale)` — the target extent handed to `QImage.scaled`. -/
def scaleDim (n : Nat) (s : ℚ) : Nat := (truncQ ((n : ℚ) * s)).toNat

/-- Modelled from the toolkit: `SourceOver` composition of one pixel onto
another, in premultiplied 8-bit space (`QPainter`'s default mode). -/
def overPixel (s d : Pixel) : Pixel :=
  ⟨s.r + d.r * (255 - s.a) / 255,
   s.g + d.g * (255 - s.a) / 255,
   s.b + d.b * (255 - s.a) / 255,
   s.a + d.a * (255 - s.a) / 255⟩

/-- Modelled from the toolkit: `QPainter(dst).drawImage(p, src)` with the
default `SourceOver` mode — composite `src` over `dst` with its top-left
corner at `p`; pixels outside the pasted region are untouched. -/
def drawImageAt (dst src : Img) (p : Pt) : Img :=
  ⟨dst.w, dst.h, fun x y =>
    if p.x ≤ x ∧ x < p.x + (src.w : Int) ∧ p.y ≤ y ∧ y < p.y + (src.h : Int) then
      overPixel (src.pix (x - p.x) (y - p.y)) (dst.pix x y)
    else dst.pix x y⟩

/-- Modelled from the toolkit: `QPainter.fillRect(rect, color)` with
`CompositionMode_Source` — overwrite every pixel of the rectangle. -/
def fillRectImg (img : Img) (r : SRect) (c : Pixel) : Img :=
  ⟨img.w, img.h, fun x y =>
    if r.x ≤ x ∧ x ≤ r.x + r.w - 1 ∧ r.y ≤ y ∧ y ≤ r.y + r.h - 1 then c
    else img.pix x y⟩

/-- One edge of the polygon crossed by a leftward ray from `(x, y)`:
the standard even-odd crossing test, cross-multiplied to stay in `Int`. -/
def edgeCrosses (a b : Pt) (x y : Int) : Bool :=
  if a.y ≤ y ∧ y < b.y then
    decide ((x - a.x) * (b.y - a.y) < (b.x - a.x) * (y - a.y))
  else if b.y ≤ y ∧ y < a.y then
    decide ((x - a.x) * (b.y - a.y) > (b.x - a.x) * (y - a.y))
  else false

/-- The edge list of a path treated as an implicitly closed polygon. -/
def polyEdges : List Pt → List (Pt × Pt)
  | [] => []
  | p :: ps => List.zip (p :: ps) (ps ++ [p])

/-- Modelled from the toolkit: point membership in the polygon drawn by
`QPainterPath.addPolygon` / `fillPath` with its default odd-even fill rule
— the crossing-number (even-odd) test over the implicitly closed path. -/
def insidePoly (path : List Pt) (x y : Int) : Bool :=
  ((polyEdges path).countP fun e => edgeCrosses e.1 e.2 x y) % 2 == 1

/-- The mask built by `extract_selection`/`cut_selection` for lasso/polygon
selections: a transparent ARGB32 buffer of the given size with the
selection polygon filled opaque white (`fillPath(path, Qt.white)`). -/
def polyMask (w h : Nat) (path : List Pt) : Img :=
  ⟨w, h, fun x y => if insidePoly path x y then Pixel.white else Pixel.clear⟩

/-- Modelled from the toolkit: `CompositionMode_DestinationIn` — keep the
destination, multiplying it by the source alpha (premultiplied space). -/
def destIn (dst msk : Img) : Img :=
  ⟨dst.w, dst.h, fun x y =>
    let d := dst.pix x y
    let m := msk.pix x y
    ⟨d.r * m.a / 255, d.g * m.a / 255, d.b * m.a / 255, d.a * m.a / 255⟩⟩

/-- The lasso/polygon extraction pipeline of `Canvas.extract_selection`:
draw the original with `CompositionMode_Source` onto a fresh transparent
buffer of the same size, then apply the polygon mask with
`CompositionMode_DestinationIn`. -/
def lassoExtract (orig : Img) (path : List Pt) : Img :=
  destIn orig (polyMask orig.w orig.h path)

/-- Squared-distance test against the capsule of a stroke segment, over ℚ:
used to model `QPainter.drawLine` with a round-capped, round-joined pen. -/
def segHit (a b p : Pt) (width : Nat) : Bool :=
  let ax : ℚ := a.x
  let ay : ℚ := a.y
  let bx : ℚ := b.x
  let bz : ℚ := b.y
  let px : ℚ := p.x
  let py : ℚ := p.y
  let d : ℚ := (bx - ax) ^ 2 + (bz - ay) ^ 2
  let t : ℚ := if d = 0 then 0 else
    max 0 (min 1 (((px - ax) * (bx - ax) + (py - ay) * (bz - ay)) / d))
  let qx : ℚ := ax + t * (bx - ax)
  let qy : ℚ := ay + t * (bz - ay)
  decide ((px - qx) ^ 2 + (py - qy) ^ 2 ≤ ((width : ℚ) / 2) ^ 2)

/-- Modelled from the toolkit: `QPainter.drawLine(a, b)` with a solid pen of
the given width, round cap and round join — overwrite every pixel whose
centre lies within the segment's capsule. -/
def drawLineImg (img : Img) (a b : Pt) (c : Pixel) (width : Nat) : Img :=
  ⟨img.w, img.h, fun x y => if segHit a b ⟨x, y⟩ width then c else img.pix x y⟩

/-- The active tool: `None` in the source means freehand drawing; the menu
also installs the strings `brush` and `pencil`, which no event handler
branch ever matches. -/
inductive Tool where
  | rect
  | lasso
  | polygon
  | erase
  | brush
  | pencil
  deriving DecidableEq, Repr

/-- The instance state of the `Canvas` widget (`Canvas.__init__`), one field
per mutable Python attribute that the claims touch.  `image` is the derived
display buffer, `original_image` the authoritative one. -/
structure Canvas where
  original_image : Img
  image : Img
  current_scale : ℚ
  offset_x : Int
  offset_y : Int
  tool : Option Tool
  selection_start : Option Pt
  selection_path : List Pt
  drawing_selection : Bool
  selected_area : Option Img
  is_moving_selection : Bool
  selection_offset : Pt
  drawing : Bool
  last_point : Pt
  brush_color : Pixel
  brush_size : Nat
  eraser_size : Nat

/-- `Canvas.__init__`: an 800×600 white canvas, scale 1, no tool, no
selection. -/
def initCanvas : Canvas where
  original_image := solidImg 800 600 Pixel.white
  image := solidImg 800 600 Pixel.white
  current_scale := 1
  offset_x := 0
  offset_y := 0
  tool := none
  selection_start := none
  selection_path := []
  drawing_selection := false
  selected_area := none
  is_moving_selection := false
  selection_offset := ⟨0, 0⟩
  drawing := false
  last_point := ⟨0, 0⟩
  brush_color := ⟨0, 0, 0, 255⟩
  brush_size := 3
  eraser_size := 10

/-- The abstract selection-engine state of spec §4.4, read off the concrete
flags the event handlers test: `Moving` is an active move of a finalized
selection (`is_moving_selection` with a selected area, the guard of
`mouseMoveEvent`), `Selecting` is a path being built (the lasso/polygon
`drawing_selection` flag, or a rect drag in progress), `Selected` a
finalized extracted area, and `Idle` anything else. -/
inductive EngineState where
  | Idle
  | Selecting
  | Selected
  | Moving
  deriving DecidableEq, Repr

def engineState (c : Canvas) : EngineState :=
  if c.is_moving_selection = true ∧ c.selected_area.isSome = true then .Moving
  else if c.drawing_selection = true then .Selecting
  else if c.tool = some Tool.rect ∧ c.selection_start.isSome = true ∧
      c.selected_area.isSome = false then .Selecting
  else if c.selected_area.isSome = true then .Selected
  else .Idle

/-- `Canvas.update_canvas_scale`: re-derive the display buffer from the
original at the current scale. -/
def update_canvas_scale (c : Canvas) : Canvas :=
  {c with image := (scaledImg c.original_image
    (scaleDim c.original_image.w c.current_scale)
    (scaleDim c.original_image.h c.current_scale))}

/-- `Canvas.set_tool`: install the tool and drop all selection state. -/
def set_tool (t : Option Tool) (c : Canvas) : Canvas :=
  {c with tool := t, selection_start := none, selection_path := [],
          drawing_selection := false, selected_area := none}

/-- `Canvas.map_to_scaled_image`: widget coordinates to image coordinates —
subtract the centering offsets, divide by the scale, truncate.  No bounds
clamping. -/
def map_to_scaled_image (c : Canvas) (pos : Pt) : Pt :=
  ⟨truncQ (((pos.x - c.offset_x : Int) : ℚ) / c.current_scale),
   truncQ (((pos.y - c.offset_y : Int) : ℚ) / c.current_scale)⟩

/-- `Canvas.map_from_scaled_image`: image coordinates back to widget
coordinates. -/
def map_from_scaled_image (c : Canvas) (pos : Pt) : Pt :=
  ⟨truncQ ((pos.x : ℚ) * c.current_scale + (c.offset_x : ℚ)),
   truncQ ((pos.y : ℚ) * c.current_scale + (c.offset_y : ℚ))⟩

/-- `Canvas.get_selection_rect`: the normalized rectangle spanned by
`selection_start` and the last path point; the null rectangle when either
is missing — or when `selection_start` is the falsy `QPoint(0, 0)`. -/
def get_selection_rect (c : Canvas) : SRect :=
  match c.selection_start, c.selection_path.getLast? with
  | some s, some e =>
      if s.x = 0 ∧ s.y = 0 then SRect.null
      else ⟨min s.x e.x, min s.y e.y,
            max s.x e.x - min s.x e.x, max s.y e.y - min s.y e.y⟩
  | _, _ => SRect.null

/-- `Canvas.handle_pinch` on a `GestureStarted`/`GestureUpdated` tick:
multiply the scale by the gesture's factor, clamp to `[0.1, 5.0]`, and when
the value changed re-derive the display buffer.  A null original image is a
no-op. -/
def handle_pinch (c : Canvas) (factor : ℚ) : Canvas :=
  if c.original_image.isNullImg then c
  else
    let ns := max (1/10) (min 5 (c.current_scale * factor))
    if ns = c.current_scale then c
    else update_canvas_scale {c with current_scale := ns}

/-- `PhotoEditor.zoom_in` (src/ui/menus.py): multiply the scale by 1.2 —
with no clamping — then re-derive the display buffer. -/
def zoom_in (c : Canvas) : Canvas :=
  update_canvas_scale {c with current_scale := c.current_scale * (6/5)}

/-- `PhotoEditor.zoom_out` (src/ui/menus.py): multiply the scale by 0.8 —
with no clamping — then re-derive the display buffer. -/
def zoom_out (c : Canvas) : Canvas :=
  update_canvas_scale {c with current_scale := c.current_scale * (4/5)}

/-- `Canvas.extract_selection`.  Empty path: status message only.  Lasso or
polygon tool: mask the original by the filled selection polygon.  Rect tool
with a truthy `selection_start`: copy the normalized rectangle when it is
valid.  Every non-empty-path exit emits "Selection extracted.". -/
def extract_selection (c : Canvas) : Canvas × List String :=
  if c.selection_path = [] then (c, ["No selection to extract."])
  else
    match c.tool with
    | some Tool.lasso | some Tool.polygon =>
        ({c with selected_area := (some
            (lassoExtract c.original_image c.selection_path))},
         ["Selection extracted."])
    | some Tool.rect =>
        if qpointTruthy c.selection_start = true then
          let r := get_selection_rect c
          if r.isValid then
            ({c with selected_area := some (copyRect c.original_image r)},
             ["Selection extracted."])
          else (c, ["Selection extracted."])
        else (c, ["Selection extracted."])
    | _ => (c, ["Selection extracted."])

/-- `Canvas.copy_selection`: with no path, a status message; otherwise
extract and, when a selected area exists, publish it to the clipboard. -/
def copy_selection (c : Canvas) (clip : Option Img) :
    Canvas × Option Img × List String :=
  if c.selection_path = [] then (c, clip, ["No selection to copy."])
  else
    let ex := extract_selection c
    match ex.1.selected_area with
    | some a => (ex.1, some a, ex.2 ++ ["Selection copied to clipboard."])
    | none => (ex.1, clip, ex.2)

/-- `Canvas.cut_selection`: with no path, a status message; otherwise copy,
then blank the selected region of the original (rect fill, or the polygon
mask drawn over it), re-derive the display buffer and clear the
selection. -/
def cut_selection (c : Canvas) (clip : Option Img) :
    Canvas × Option Img × List String :=
  if c.selection_path = [] then (c, clip, ["No selection to cut."])
  else
    let cp := copy_selection c clip
    let c1 := cp.1
    let orig' :=
      if c1.tool = some Tool.rect ∧ c1.selection_path.length = 2 then
        fillRectImg c1.original_image (get_selection_rect c1) Pixel.white
      else if c1.tool = some Tool.lasso ∨ c1.tool = some Tool.polygon then
        drawImageAt c1.original_image
          (polyMask c1.original_image.w c1.original_image.h c1.selection_path)
          ⟨0, 0⟩
      else c1.original_image
    ((update_canvas_scale
        {c1 with original_image := orig', selection_path := [],
                 selected_area := none}),
     cp.2.1, cp.2.2 ++ ["Selection cut."])

/-- `Canvas.paste_selection`: empty clipboard is a status-message no-op;
otherwise draw the clipboard image onto the original at `position` (the
Python `position or QPoint(0, 0)` default collapses to `getD`, because the
only falsy point is the origin itself), re-derive the display buffer, and
install the pasted rectangle as the finalized selection. -/
def paste_selection (c : Canvas) (clip : Option Img) (position : Option Pt) :
    Canvas × List String :=
  match clip with
  | none => (c, ["Clipboard is empty."])
  | some img =>
      let p := position.getD ⟨0, 0⟩
      let orig' := drawImageAt c.original_image img p
      ((update_canvas_scale
          {c with original_image := orig',
                  selection_start := some p,
                  selection_path := [p, p.add ⟨(img.w : Int), (img.h : Int)⟩],
                  selected_area := some img}),
       ["Image pasted with selection."])

/-- The first half of `Canvas.mousePressEvent`: start moving when the click
lands inside the bounding rectangle of an existing selected area, recording
`offset = pos - selection_start`; otherwise clear any existing selection. -/
def pressClearOrMove (c : Canvas) (pos : Pt) : Canvas :=
  if c.selected_area.isSome = true ∧ (get_selection_rect c).containsPt pos then
    {c with is_moving_selection := true,
            selection_offset := pos.sub (c.selection_start.getD ⟨0, 0⟩)}
  else
    {c with is_moving_selection := false, selection_start := none,
            selection_path := [], selected_area := none}

/-- The lasso/polygon arm of the tool dispatch in `mousePressEvent`: start a
fresh one-point path unless already mid-path, and raise the flag. -/
def pressLasso (c : Canvas) (pos : Pt) : Canvas :=
  if c.drawing_selection then {c with drawing_selection := true}
  else {c with selection_path := [pos], drawing_selection := true}

/-- The second half of `Canvas.mousePressEvent`: the per-tool dispatch,
which runs regardless of whether the press started a move. -/
def pressToolDispatch (c : Canvas) (pos : Pt) (leftButton : Bool) : Canvas :=
  match c.tool with
  | some Tool.rect =>
      {c with selection_start := some pos, selection_path := [pos]}
  | some Tool.lasso => pressLasso c pos
  | some Tool.polygon => pressLasso c pos
  | none =>
      if leftButton then {c with drawing := true, last_point := pos} else c
  | some Tool.erase => {c with drawing := true, last_point := pos}
  | some Tool.brush => c
  | some Tool.pencil => c

/-- `Canvas.mousePressEvent`: map the widget position into image space and,
unless either mapped coordinate is exactly −1, run the move-or-clear step
followed by the tool dispatch. -/
def mousePressEvent (c : Canvas) (wp : Pt) (leftButton : Bool) : Canvas :=
  let pos := map_to_scaled_image c wp
  if pos.x ≠ -1 ∧ pos.y ≠ -1 then
    pressToolDispatch (pressClearOrMove c pos) pos leftButton
  else c

/-- `Canvas.mouseMoveEvent`: move a selection, grow the in-progress
selection path, or draw/erase a stroke segment on the original. -/
def mouseMoveEvent (c : Canvas) (wp : Pt) : Canvas :=
  let pos := map_to_scaled_image c wp
  if c.is_moving_selection = true ∧ c.selected_area.isSome = true then
    {c with selection_start := some (pos.sub c.selection_offset)}
  else if c.tool = some Tool.rect ∧ qpointTruthy c.selection_start = true then
    {c with selection_path := [c.selection_start.getD ⟨0, 0⟩, pos]}
  else if (c.tool = some Tool.lasso ∨ c.tool = some Tool.polygon) ∧
      c.drawing_selection = true then
    {c with selection_path := c.selection_path ++ [pos]}
  else if c.tool = none ∧ c.drawing = true then
    update_canvas_scale
      {c with original_image := (drawLineImg c.original_image c.last_point pos c.brush_color c.brush_size), last_point := pos}
  else if c.tool = some Tool.erase ∧ c.drawing = true then
    update_canvas_scale
      {c with original_image := (drawLineImg c.original_image c.last_point pos Pixel.white c.eraser_size), last_point := pos}
  else c

/-- Modelled from the toolkit: `QImage.transformed(QTransform().rotate(90))`
— the 90° clockwise rotation; the old pixel `(u, v)` lands at
`(h - 1 - v, u)`. -/
def rot90cw (img : Img) : Img :=
  ⟨img.h, img.w, fun x y => img.pix y ((img.h : Int) - 1 - x)⟩

/-- Modelled from the toolkit: `QImage.mirrored(vertical=True)`. -/
def mirrorV (img : Img) : Img :=
  ⟨img.w, img.h, fun x y => img.pix x ((img.h : Int) - 1 - y)⟩

/-- `PhotoEditor.rotate_image_90` (src/ui/menus.py): rotate the canvas's
display buffer 90° clockwise — the original image is not touched. -/
def rotate_image_90 (c : Canvas) : Canvas :=
  if c.image.isNullImg then c else {c with image := rot90cw c.image}

/-- `PhotoEditor.flip_vertical` (src/ui/menus.py): mirror the canvas's
display buffer vertically — the original image is not touched. -/
def flip_vertical (c : Canvas) : Canvas :=
  if c.image.isNullImg then c else {c with image := mirrorV c.image}

/-- `PhotoEditor.crop_image` (src/ui/menus.py): crop the canvas's display
buffer to its centered largest square — the original image is not
touched. -/
def crop_image (c : Canvas) : Canvas :=
  if c.image.isNullImg then c
  else
    let cs : Int := min c.image.w c.image.h
    {c with image := (copyRect c.image
      ⟨((c.image.w : Int) - cs) / 2, ((c.image.h : Int) - cs) / 2, cs, cs⟩)}


/-- A canvas mid-move: a selected area held with drag offset (1, 1). -/
def c9demo : Canvas :=
  {initCanvas with is_moving_selection := true,
                   selected_area := some (solidImg 4 4 Pixel.white),
                   selection_offset := ⟨1, 1⟩}

/-- A canvas whose buffers are a 2×1 image with two distinct pixels. -/
def c2demo : Canvas :=
  {initCanvas with original_image := ⟨2, 1, fun x y => if x = 0 ∧ y = 0 then ⟨0, 0, 0, 255⟩ else Pixel.white⟩,
                   image := ⟨2, 1, fun x y => if x = 0 ∧ y = 0 then ⟨0, 0, 0, 255⟩ else Pixel.white⟩}

/-- A rect-tool canvas with a finalized two-point path from (10, 10) to
(50, 40). -/
def c4demo : Canvas :=
  {initCanvas with tool := some Tool.rect,
                   selection_start := some ⟨10, 10⟩,
                   selection_path := [⟨10, 10⟩, ⟨50, 40⟩]}

/-- A rect-tool canvas with a finalized two-point path whose start is the
origin — the falsy `QPoint(0, 0)`. -/
def c4origin : Canvas :=
  {initCanvas with tool := some Tool.rect,
                   selection_start := some ⟨0, 0⟩,
                   selection_path := [⟨0, 0⟩, ⟨50, 40⟩]}

/-- The triangle path of the polygon-selection example. -/
def triPath : List Pt := [⟨0, 0⟩, ⟨10, 0⟩, ⟨5, 10⟩]

/-- A lasso-tool canvas holding the triangle path. -/
def c6demo : Canvas :=
  {initCanvas with tool := some Tool.lasso, selection_path := triPath}

/-- A rect-tool canvas with a finalized, extracted selection spanning
(1, 1)–(10, 10). -/
def c8demo : Canvas :=
  {initCanvas with tool := some Tool.rect,
                   selection_start := some ⟨1, 1⟩,
                   selection_path := [⟨1, 1⟩, ⟨10, 10⟩],
                   selected_area := some (solidImg 9 9 Pixel.white)}

/-- A rect-tool canvas with no selection, scale 1 and zero offsets. -/
def c10demo : Canvas := {initCanvas with tool := some Tool.rect}

/-- `truncQ` is the identity on integers. -/
lemma truncQ_intCast (n : Int) : truncQ (n : ℚ) = n := by
  unfold truncQ
  rcases lt_or_le n 0 with h | h
  · have hq : ((n : ℚ)) < 0 := by exact_mod_cast h
    rw [if_pos hq, ← Int.cast_neg, Rat.num_intCast, Rat.den_intCast, Nat.div_one]
    omega
  · rw [if_neg (by simp only [not_lt]; exact_mod_cast h), Rat.num_intCast,
      Rat.den_intCast, Nat.div_one]
    omega

/-- At scale 1 the target extent handed to `QImage.scaled` equals the
original extent. -/
lemma scaleDim_one (n : Nat) : scaleDim n 1 = n := by
  unfold scaleDim
  rw [mul_one, show ((n : Nat) : ℚ) = ((n : Int) : ℚ) by push_cast; ring,
    truncQ_intCast]
  simp

/-- At scale 1 with zero offsets the widget-to-image mapping is the
identity. -/
lemma map_to_scaled_image_id (c : Canvas) (wp : Pt) (h1 : c.current_scale = 1)
    (h2 : c.offset_x = 0) (h3 : c.offset_y = 0) :
    map_to_scaled_image c wp = wp := by
  simp [map_to_scaled_image, h1, h2, h3, truncQ_intCast]

/-- C3: switching the tool from any prior canvas state leaves the selection
engine in the Idle state with an empty selection path and no selected area,
and `set_tool` is idempotent: applying it twice with the same tool equals
applying it once. -/
theorem c3_set_tool_reset (c : Canvas) (t : Option Tool) :
    engineState (set_tool t c) = EngineState.Idle ∧
    (set_tool t c).selection_path = [] ∧
    (set_tool t c).selected_area = none ∧
    set_tool t (set_tool t c) = set_tool t c := by
  refine ⟨?_, rfl, rfl, rfl⟩
  simp [engineState, set_tool]

/-- C5: copy, cut and extract invoked with an empty selection path, and
paste invoked with an empty clipboard, each emit exactly one status message
and leave the canvas — original image, display image, selection path and
selected area — completely unchanged. -/
theorem c5_empty_selection_noop (c : Canvas) (clip : Option Img)
    (pos : Option Pt) (h : c.selection_path = []) :
    copy_selection c clip = (c, clip, ["No selection to copy."]) ∧
    cut_selection c clip = (c, clip, ["No selection to cut."]) ∧
    extract_selection c = (c, ["No selection to extract."]) ∧
    paste_selection c none pos = (c, ["Clipboard is empty."]) := by
  refine ⟨?_, ?_, ?_, rfl⟩ <;>
    simp [copy_selection, cut_selection, extract_selection, h]

/-- Witness for C5 at the freshly initialized canvas, whose selection path
is empty. -/
theorem c5_empty_selection_noop_witness :
    copy_selection initCanvas none = (initCanvas, none, ["No selection to copy."]) ∧
    cut_selection initCanvas none = (initCanvas, none, ["No selection to cut."]) ∧
    extract_selection initCanvas = (initCanvas, ["No selection to extract."]) ∧
    paste_selection initCanvas none none = (initCanvas, ["Clipboard is empty."]) :=
  c5_empty_selection_noop initCanvas none none rfl

/-- C9: a pointer move in the Moving state with a selected area present only
re-anchors the selection: the resulting state is the previous one with
`selection_start := mapped point − selection_offset`, every other field —
the selected-area pixel buffer, the selection path, the original image —
unchanged. -/
theorem c9_moving_only_moves_anchor (c : Canvas) (wp : Pt)
    (hm : c.is_moving_selection = true) (ha : c.selected_area.isSome = true) :
    mouseMoveEvent c wp = {c with selection_start := (some ((map_to_scaled_image c wp).sub c.selection_offset))} := by
  simp [mouseMoveEvent, hm, ha]

/-- Witness for C9: moving the pointer to widget point (5, 5) at scale 1 and
zero offsets re-anchors the selection at (4, 4) and changes nothing else. -/
theorem c9_moving_only_moves_anchor_witness :
    mouseMoveEvent c9demo ⟨5, 5⟩ = {c9demo with selection_start := some (Pt.mk 4 4)} := by
  have h := c9_moving_only_moves_anchor c9demo ⟨5, 5⟩ rfl rfl
  have hmap : (map_to_scaled_image c9demo ⟨5, 5⟩).sub c9demo.selection_offset
      = Pt.mk 4 4 := by
    rw [map_to_scaled_image_id c9demo ⟨5, 5⟩ rfl rfl rfl]
    decide
  rw [hmap] at h
  exact h

/-- C2 (code bug): the menu transform commands act on the derived display
buffer only.  On a 2×1 canvas, rotate/flip/crop leave `original_image`
untouched (still 2 wide, while the rotation of it would be 1 wide), rotate
mutates `image` in place, and the next display recompute from the original
produces the untransformed 2-wide image again, discarding the rotation —
contradicting the claim that the original reflects the transformed
pixels. -/
theorem c2_transforms_bypass_original :
    (rotate_image_90 c2demo).original_image = c2demo.original_image ∧
    (flip_vertical c2demo).original_image = c2demo.original_image ∧
    (crop_image c2demo).original_image = c2demo.original_image ∧
    (rotate_image_90 c2demo).image = rot90cw c2demo.image ∧
    c2demo.original_image.w = 2 ∧
    (rot90cw c2demo.original_image).w = 1 ∧
    (update_canvas_scale (rotate_image_90 c2demo)).image.w = 2 := by
  refine ⟨rfl, rfl, rfl, rfl, rfl, rfl, ?_⟩
  have h1 : (rotate_image_90 c2demo).original_image.w = 2 := rfl
  have h2 : (rotate_image_90 c2demo).current_scale = 1 := rfl
  simp [update_canvas_scale, scaledImg, h1, h2, scaleDim_one]

/-- C1 counterexample: nine discrete zoom-in commands starting from the
initial canvas (scale 1) drive `current_scale` to (6/5)⁹ ≈ 5.16, strictly
above the claimed upper bound 5. -/
theorem c1_discrete_zoom_escapes_bounds :
    (zoom_in (zoom_in (zoom_in (zoom_in (zoom_in (zoom_in (zoom_in (zoom_in
      (zoom_in initCanvas))))))))).current_scale > 5 := by
  norm_num [zoom_in, update_canvas_scale, initCanvas]

/-- C1 amended: a pinch-gesture tick on a canvas with a non-null original
image always clamps the new scale into [0.1, 5.0] before recomputing the
display image, but the discrete zoom-in/zoom-out commands multiply the
scale by 1.2 / 0.8 with no clamping at all. -/
theorem c1_pinch_clamps_discrete_does_not (c : Canvas) (f : ℚ) :
    (¬ c.original_image.isNullImg →
       1/10 ≤ (handle_pinch c f).current_scale ∧
       (handle_pinch c f).current_scale ≤ 5) ∧
    (zoom_in c).current_scale = c.current_scale * (6/5) ∧
    (zoom_out c).current_scale = c.current_scale * (4/5) := by
  refine ⟨?_, rfl, rfl⟩
  intro hn
  have hb1 : (1:ℚ)/10 ≤ max (1/10) (min 5 (c.current_scale * f)) := le_max_left _ _
  have hb2 : max (1/10) (min 5 (c.current_scale * f)) ≤ 5 :=
    max_le (by norm_num) (min_le_left _ _)
  simp only [handle_pinch, if_neg hn]
  by_cases hns : max (1/10) (min 5 (c.current_scale * f)) = c.current_scale
  · rw [if_pos hns]
    exact ⟨hns ▸ hb1, hns ▸ hb2⟩
  · rw [if_neg hns]
    exact ⟨hb1, hb2⟩

/-- Witness for C1: a pinch tick with factor 100 on the initial canvas lands
inside [0.1, 5.0]. -/
theorem c1_pinch_clamps_witness :
    1/10 ≤ (handle_pinch initCanvas 100).current_scale ∧
    (handle_pinch initCanvas 100).current_scale ≤ 5 :=
  (c1_pinch_clamps_discrete_does_not initCanvas 100).1 (by decide)

/-- Multiplying by the full alpha 255 and renormalizing is the identity. -/
lemma mul255div255 (m : Nat) : m * 255 / 255 = m := Nat.mul_div_cancel m (by norm_num)

/-- C4 counterexample: with the rect tool and the finalized two-point path
[(0, 0), (50, 40)] — a rectangle of non-zero area per `SRect.isValid` — the
extraction sets no selected area at all, because the start `QPoint(0, 0)`
is falsy in PyQt and the rect branch of `extract_selection` is skipped. -/
theorem c4_origin_start_extracts_nothing :
    (extract_selection c4origin).1.selected_area = none ∧
    SRect.isValid ⟨0, 0, 50, 40⟩ := by
  exact ⟨rfl, by decide⟩

/-- C4 amended: with the rect tool, a selection start that is not the falsy
origin `QPoint(0, 0)`, and a path whose last point is `e`, extraction sets
the selected area to the verbatim copy of exactly the normalized rectangle
spanned by start and `e` when that rectangle has non-zero area, and leaves
the selected area unchanged when it has zero area. -/
theorem c4_rect_extract_amended (c : Canvas) (s e : Pt)
    (ht : c.tool = some Tool.rect)
    (hs : c.selection_start = some s)
    (hnz : ¬(s.x = 0 ∧ s.y = 0))
    (he : c.selection_path.getLast? = some e) :
    (SRect.isValid ⟨min s.x e.x, min s.y e.y, max s.x e.x - min s.x e.x, max s.y e.y - min s.y e.y⟩ →
      (extract_selection c).1.selected_area =
        some (copyRect c.original_image ⟨min s.x e.x, min s.y e.y, max s.x e.x - min s.x e.x, max s.y e.y - min s.y e.y⟩)) ∧
    (¬ SRect.isValid ⟨min s.x e.x, min s.y e.y, max s.x e.x - min s.x e.x, max s.y e.y - min s.y e.y⟩ →
      (extract_selection c).1.selected_area = c.selected_area) := by
  have hp : c.selection_path ≠ [] := by
    intro h0
    rw [h0] at he
    simp at he
  have htr : qpointTruthy c.selection_start = true := by
    simp [qpointTruthy, hs, hnz]
  have hrect : get_selection_rect c =
      ⟨min s.x e.x, min s.y e.y, max s.x e.x - min s.x e.x, max s.y e.y - min s.y e.y⟩ := by
    simp [get_selection_rect, hs, he, hnz]
  constructor <;> intro hv <;>
    simp [extract_selection, hp, ht, htr, hrect, hv]

/-- Witness for C4 amended: corners (10, 10) and (50, 40) yield a verbatim
copy of the 40-wide, 30-high sub-rectangle anchored at (10, 10). -/
theorem c4_rect_extract_amended_witness :
    (extract_selection c4demo).1.selected_area =
      some (copyRect c4demo.original_image ⟨10, 10, 40, 30⟩) ∧
    (copyRect c4demo.original_image ⟨10, 10, 40, 30⟩).w = 40 ∧
    (copyRect c4demo.original_image ⟨10, 10, 40, 30⟩).h = 30 := by
  have h := (c4_rect_extract_amended c4demo ⟨10, 10⟩ ⟨50, 40⟩ rfl rfl
    (by decide) rfl).1 (by decide)
  norm_num [min_def, max_def] at h
  exact ⟨h, rfl, rfl⟩

/-- C6: with the lasso or polygon tool and a non-empty path, extraction
yields a selected area of exactly the original image's dimensions in which
every pixel inside the implicitly closed polygon equals the original pixel
and is fully opaque (the original being RGB, its alpha is 255), and every
pixel outside the polygon is fully transparent; in the triangle
[(0,0),(10,0),(5,10)], (5, 5) is inside and (0, 9) is outside. -/
theorem c6_lasso_extract_masks (c : Canvas)
    (ht : c.tool = some Tool.lasso ∨ c.tool = some Tool.polygon)
    (hp : c.selection_path ≠ [])
    (hA : ∀ x y, (c.original_image.pix x y).a = 255) :
    (extract_selection c).1.selected_area =
      some (lassoExtract c.original_image c.selection_path) ∧
    (lassoExtract c.original_image c.selection_path).w = c.original_image.w ∧
    (lassoExtract c.original_image c.selection_path).h = c.original_image.h ∧
    (∀ x y, insidePoly c.selection_path x y = true →
      (lassoExtract c.original_image c.selection_path).pix x y = c.original_image.pix x y ∧
      ((lassoExtract c.original_image c.selection_path).pix x y).a = 255) ∧
    (∀ x y, insidePoly c.selection_path x y = false →
      ((lassoExtract c.original_image c.selection_path).pix x y).a = 0) ∧
    insidePoly triPath 5 5 = true ∧
    insidePoly triPath 0 9 = false := by
  refine ⟨?_, rfl, rfl, ?_, ?_, by decide, by decide⟩
  · rcases ht with h | h <;> simp [extract_selection, hp, h]
  · intro x y hxy
    have hd := hA x y
    rcases hpix : c.original_image.pix x y with ⟨r, g, b, a⟩
    rw [hpix] at hd
    simp only at hd
    constructor
    · simp [lassoExtract, destIn, polyMask, hxy, hpix, Pixel.white, mul255div255]
    · simp [lassoExtract, destIn, polyMask, hxy, hpix, Pixel.white, mul255div255]
      exact hd
  · intro x y hxy
    simp [lassoExtract, destIn, polyMask, hxy, Pixel.clear]

/-- Witness for C6 at the lasso-tool canvas holding the triangle path over
the white original. -/
theorem c6_lasso_extract_masks_witness :
    (extract_selection c6demo).1.selected_area =
      some (lassoExtract c6demo.original_image c6demo.selection_path) ∧
    (lassoExtract c6demo.original_image c6demo.selection_path).w = c6demo.original_image.w ∧
    (lassoExtract c6demo.original_image c6demo.selection_path).h = c6demo.original_image.h ∧
    (∀ x y, insidePoly c6demo.selection_path x y = true →
      (lassoExtract c6demo.original_image c6demo.selection_path).pix x y = c6demo.original_image.pix x y ∧
      ((lassoExtract c6demo.original_image c6demo.selection_path).pix x y).a = 255) ∧
    (∀ x y, insidePoly c6demo.selection_path x y = false →
      ((lassoExtract c6demo.original_image c6demo.selection_path).pix x y).a = 0) ∧
    insidePoly triPath 5 5 = true ∧
    insidePoly triPath 0 9 = false :=
  c6_lasso_extract_masks c6demo (Or.inl rfl) (by decide) (fun _ _ => rfl)

/-- C7: pasting a non-empty clipboard image at `position` (default the
origin) draws it onto the original image at that point, recomputes the
display image from the new original, and installs the pasted rectangle as
the finalized selection — the path is exactly [p, p + (w, h)] and the
selected area is the pasted buffer itself; if the canvas was not mid-move
and not mid-path, the engine is left in the Selected state. -/
theorem c7_paste_installs_selection (c : Canvas) (img : Img) (pos : Option Pt) :
    (paste_selection c (some img) pos).1.original_image =
      drawImageAt c.original_image img (pos.getD ⟨0, 0⟩) ∧
    (paste_selection c (some img) pos).1.image =
      scaledImg (drawImageAt c.original_image img (pos.getD ⟨0, 0⟩))
        (scaleDim (drawImageAt c.original_image img (pos.getD ⟨0, 0⟩)).w c.current_scale)
        (scaleDim (drawImageAt c.original_image img (pos.getD ⟨0, 0⟩)).h c.current_scale) ∧
    (paste_selection c (some img) pos).1.selection_start = some (pos.getD ⟨0, 0⟩) ∧
    (paste_selection c (some img) pos).1.selection_path =
      [pos.getD ⟨0, 0⟩, (pos.getD ⟨0, 0⟩).add ⟨(img.w : Int), (img.h : Int)⟩] ∧
    (paste_selection c (some img) pos).1.selected_area = some img ∧
    (paste_selection c (some img) pos).2 = ["Image pasted with selection."] ∧
    (c.is_moving_selection = false → c.drawing_selection = false →
      engineState (paste_selection c (some img) pos).1 = EngineState.Selected) := by
  refine ⟨rfl, rfl, rfl, rfl, rfl, rfl, ?_⟩
  intro h1 h2
  simp [paste_selection, update_canvas_scale, engineState, h1, h2]

/-- Witness for C7: pasting a 5×5 buffer at (20, 20) on the initial canvas
yields the path [(20, 20), (25, 25)] and leaves the engine Selected. -/
theorem c7_paste_installs_selection_witness :
    (paste_selection initCanvas (some (solidImg 5 5 Pixel.white)) (some ⟨20, 20⟩)).1.selection_path =
      [Pt.mk 20 20, Pt.mk 25 25] ∧
    engineState (paste_selection initCanvas (some (solidImg 5 5 Pixel.white)) (some ⟨20, 20⟩)).1 =
      EngineState.Selected := by
  have h := c7_paste_installs_selection initCanvas (solidImg 5 5 Pixel.white) (some ⟨20, 20⟩)
  refine ⟨?_, h.2.2.2.2.2.2 rfl rfl⟩
  rw [h.2.2.2.1]
  decide

/-- C8 counterexample: on the rect-tool canvas with the finalized, extracted
selection [(1, 1), (10, 10)], pressing inside its bounding rectangle at
(5, 5) does enter the Moving state — but the still-running tool dispatch
replaces the existing two-point SelectionPath with the one-point path
[(5, 5)], so the path is not left intact as the claim states. -/
theorem c8_press_inside_replaces_path :
    (mousePressEvent c8demo ⟨5, 5⟩ true).is_moving_selection = true ∧
    (mousePressEvent c8demo ⟨5, 5⟩ true).selection_path ≠ c8demo.selection_path := by
  have hm := map_to_scaled_image_id c8demo ⟨5, 5⟩ rfl rfl rfl
  have hres : mousePressEvent c8demo ⟨5, 5⟩ true =
      pressToolDispatch (pressClearOrMove c8demo ⟨5, 5⟩) ⟨5, 5⟩ true := by
    simp only [mousePressEvent, hm]
    rw [if_pos (by decide : (Pt.mk 5 5).x ≠ -1 ∧ (Pt.mk 5 5).y ≠ -1)]
  have hcm : pressClearOrMove c8demo ⟨5, 5⟩ =
      {c8demo with is_moving_selection := true, selection_offset := (Pt.sub ⟨5, 5⟩ (c8demo.selection_start.getD ⟨0, 0⟩))} := by
    unfold pressClearOrMove
    rw [if_pos ⟨rfl, by decide⟩]
  rw [hres, hcm]
  exact ⟨rfl, by decide⟩

/-- C8 amended: for a press whose mapped point has neither coordinate −1: if
the point lies inside the bounding rectangle of an existing selected area,
the engine enters Moving with offset = point − selectionStart and the
SelectedArea is kept — but the tool dispatch still runs, so the rect tool
replaces selectionStart with the point and the SelectionPath with [point],
and lasso/polygon (when not mid-path) likewise restart the path at [point];
otherwise the selection is cleared and, per tool, a fresh one-point path is
started in the Selecting state (lasso/polygon mid-path keep the cleared
empty path). -/
theorem c8_press_moving_and_dispatch (c : Canvas) (wp : Pt) (lb : Bool)
    (hx : (map_to_scaled_image c wp).x ≠ -1)
    (hy : (map_to_scaled_image c wp).y ≠ -1) :
    (c.selected_area.isSome = true ∧
        (get_selection_rect c).containsPt (map_to_scaled_image c wp) →
      (mousePressEvent c wp lb).is_moving_selection = true ∧
      (mousePressEvent c wp lb).selection_offset =
        (map_to_scaled_image c wp).sub (c.selection_start.getD ⟨0, 0⟩) ∧
      (mousePressEvent c wp lb).selected_area = c.selected_area ∧
      engineState (mousePressEvent c wp lb) = EngineState.Moving ∧
      (c.tool = some Tool.rect →
        (mousePressEvent c wp lb).selection_start = some (map_to_scaled_image c wp) ∧
        (mousePressEvent c wp lb).selection_path = [map_to_scaled_image c wp]) ∧
      ((c.tool = some Tool.lasso ∨ c.tool = some Tool.polygon) →
        (mousePressEvent c wp lb).drawing_selection = true ∧
        (c.drawing_selection = false →
          (mousePressEvent c wp lb).selection_path = [map_to_scaled_image c wp]) ∧
        (c.drawing_selection = true →
          (mousePressEvent c wp lb).selection_path = c.selection_path))) ∧
    (¬(c.selected_area.isSome = true ∧
        (get_selection_rect c).containsPt (map_to_scaled_image c wp)) →
      (mousePressEvent c wp lb).is_moving_selection = false ∧
      (mousePressEvent c wp lb).selected_area = none ∧
      (c.tool = some Tool.rect →
        (mousePressEvent c wp lb).selection_start = some (map_to_scaled_image c wp) ∧
        (mousePressEvent c wp lb).selection_path = [map_to_scaled_image c wp] ∧
        engineState (mousePressEvent c wp lb) = EngineState.Selecting) ∧
      ((c.tool = some Tool.lasso ∨ c.tool = some Tool.polygon) →
        (mousePressEvent c wp lb).drawing_selection = true ∧
        engineState (mousePressEvent c wp lb) = EngineState.Selecting ∧
        (c.drawing_selection = false →
          (mousePressEvent c wp lb).selection_path = [map_to_scaled_image c wp]) ∧
        (c.drawing_selection = true →
          (mousePressEvent c wp lb).selection_path = []))) := by
  constructor
  · rintro ⟨hsome, hin⟩
    have hstep : mousePressEvent c wp lb =
        pressToolDispatch {c with is_moving_selection := true, selection_offset := ((map_to_scaled_image c wp).sub (c.selection_start.getD ⟨0, 0⟩))} (map_to_scaled_image c wp) lb := by
      simp only [mousePressEvent]
      rw [if_pos ⟨hx, hy⟩]
      unfold pressClearOrMove
      rw [if_pos ⟨hsome, hin⟩]
    rw [hstep]
    rcases htool : c.tool with _ | t
    · cases lb <;> cases hds : c.drawing_selection <;>
        simp_all [pressToolDispatch, pressLasso, engineState]
    · cases t <;> cases lb <;> cases hds : c.drawing_selection <;>
        simp_all [pressToolDispatch, pressLasso, engineState]
  · intro hnot
    have hstep : mousePressEvent c wp lb =
        pressToolDispatch {c with is_moving_selection := false, selection_start := none, selection_path := [], selected_area := none} (map_to_scaled_image c wp) lb := by
      simp only [mousePressEvent]
      rw [if_pos ⟨hx, hy⟩]
      unfold pressClearOrMove
      rw [if_neg hnot]
    rw [hstep]
    rcases htool : c.tool with _ | t
    · cases lb <;> cases hds : c.drawing_selection <;>
        simp_all [pressToolDispatch, pressLasso, engineState]
    · cases t <;> cases lb <;> cases hds : c.drawing_selection <;>
        simp_all [pressToolDispatch, pressLasso, engineState]

/-- Witness for C8 amended, in the Moving branch: pressing (5, 5) inside the
extracted rect selection of the demo canvas enters Moving, records offset
(5, 5) − (1, 1) = (4, 4), and keeps the selected area. -/
theorem c8_press_moving_and_dispatch_witness :
    (mousePressEvent c8demo ⟨5, 5⟩ true).is_moving_selection = true ∧
    (mousePressEvent c8demo ⟨5, 5⟩ true).selected_area = c8demo.selected_area ∧
    engineState (mousePressEvent c8demo ⟨5, 5⟩ true) = EngineState.Moving := by
  have hid := map_to_scaled_image_id c8demo ⟨5, 5⟩ rfl rfl rfl
  have h := (c8_press_moving_and_dispatch c8demo ⟨5, 5⟩ true
    (by rw [hid]; decide) (by rw [hid]; decide)).1
    (by rw [hid]; exact ⟨rfl, by decide⟩)
  exact ⟨h.1, h.2.2.1, h.2.2.2.1⟩

/-- C10: a press whose mapped image-space point is exactly −1 on either axis
is silently discarded — the canvas is unchanged — while every other mapped
point is processed normally and the mapping clamps nothing: on the
rect-tool demo canvas widget point (−2, −3) maps, unclamped, to (−2, −3)
and starts a selection path there, and (801, 700) maps unclamped beyond the
800×600 image extents. -/
theorem c10_minus_one_press_discarded (c : Canvas) (wp : Pt) (lb : Bool)
    (h : (map_to_scaled_image c wp).x = -1 ∨ (map_to_scaled_image c wp).y = -1) :
    mousePressEvent c wp lb = c ∧
    map_to_scaled_image c10demo ⟨-2, -3⟩ = Pt.mk (-2) (-3) ∧
    (mousePressEvent c10demo ⟨-2, -3⟩ true).selection_path = [Pt.mk (-2) (-3)] ∧
    map_to_scaled_image c10demo ⟨801, 700⟩ = Pt.mk 801 700 := by
  refine ⟨?_, map_to_scaled_image_id c10demo ⟨-2, -3⟩ rfl rfl rfl, ?_,
    map_to_scaled_image_id c10demo ⟨801, 700⟩ rfl rfl rfl⟩
  · simp only [mousePressEvent]
    exact if_neg (by tauto)
  · have hm := map_to_scaled_image_id c10demo ⟨-2, -3⟩ rfl rfl rfl
    have hres : mousePressEvent c10demo ⟨-2, -3⟩ true =
        pressToolDispatch (pressClearOrMove c10demo ⟨-2, -3⟩) ⟨-2, -3⟩ true := by
      simp only [mousePressEvent, hm]
      rw [if_pos (by decide : (Pt.mk (-2) (-3)).x ≠ -1 ∧ (Pt.mk (-2) (-3)).y ≠ -1)]
    have hcm : pressClearOrMove c10demo ⟨-2, -3⟩ =
        {c10demo with is_moving_selection := false, selection_start := none, selection_path := [], selected_area := none} := by
      unfold pressClearOrMove
      rw [if_neg (by decide)]
    rw [hres, hcm]
    rfl

/-- Witness for C10: the widget point (−1, 5) maps to the image point
(−1, 5) on the demo canvas, and the press is discarded. -/
theorem c10_minus_one_press_discarded_witness :
    mousePressEvent c10demo ⟨-1, 5⟩ true = c10demo ∧
    map_to_scaled_image c10demo ⟨-2, -3⟩ = Pt.mk (-2) (-3) ∧
    (mousePressEvent c10demo ⟨-2, -3⟩ true).selection_path = [Pt.mk (-2) (-3)] ∧
    map_to_scaled_image c10demo ⟨801, 700⟩ = Pt.mk 801 700 :=
  c10_minus_one_press_discarded c10demo ⟨-1, 5⟩ true
    (Or.inl (by rw [map_to_scaled_image_id c10demo ⟨-1, 5⟩ rfl rfl rfl]))
